import Mathlib

/-!
Shallow embedding of `downloader_osm.py` (class `OSMDownloader`), the single
source file of the repository.  The program refreshes an OSM extract file and
a set of PostgreSQL tables; database effects are modelled as a list of
existing table names, SQL/network failures as an explicit oracle, and
`sys.exit(code)` as `Except.error code`.
-/

namespace OSMDownloader

/-- `TABLES_OSM` class attribute: the four base OSM tables, in source order. -/
def TABLES_OSM : List String :=
  ["planet_osm_line", "planet_osm_point", "planet_osm_polygon", "planet_osm_roads"]

/-- Keys of the `LAYERS` class attribute, in the insertion order of the dict
(`line_water` first, `area_water` second).  The dict values are SQL build
statements; their text is configuration-level SQL whose execution is carried
out by the external database, so only the layer names and the effect of each
statement (materialising the layer table from its base table) are embedded. -/
def LAYER_NAMES : List String := ["line_water", "area_water"]

/-- Backup-slot name of a table: the `f"{table}_backup"` convention used by
`update_db`, `backup_tables`, `restore_tables`, `create_layers`,
`backup_layers` and `restore_layers`. -/
def backupName (t : String) : String := t ++ "_backup"

/-- Base table read by the build statement of a layer: `line_water` selects from
`planet_osm_line`, `area_water` from `planet_osm_polygon`. -/
def layerSource (l : String) : String :=
  if l = "line_water" then "planet_osm_line" else "planet_osm_polygon"

/-- Failure oracle for the external world: which SQL copy statements raise,
which drop statements raise, which layer build statements raise, and the
exit code of the `osm2pgsql` subprocess.  These are the outcomes of the
database and of the importer, which the program only observes. -/
structure Oracle where
  copyFails : String → String → Bool
  dropFails : String → Bool
  layerExecFails : String → Bool
  importerExit : Nat

/-- Adds a table name to the existing-table state (idempotent: a table
exists or it does not). -/
def addTable (tabs : List String) (t : String) : List String :=
  if t ∈ tabs then tabs else tabs ++ [t]

/-- Removes a table name from the existing-table state. -/
def removeTable (tabs : List String) (t : String) : List String :=
  tabs.filter fun x => x ≠ t

/-- `_copy_table(orig, dest)`: one `cur.execute` of
`DROP dest IF EXISTS; CREATE dest (LIKE orig ...); INSERT ... SELECT` then
`conn.commit()`.  It raises (.error) when the cursor is `None`
(`conn = false`), when the oracle makes the SQL fail, or when `orig` does
not exist (`LIKE` on a missing relation); an uncommitted failure leaves the
state unchanged.  On success `dest` exists as a copy of `orig`. -/
def copyTable (conn : Bool) (o : Oracle) (tabs : List String) (orig dest : String) :
    Except Unit (List String) :=
  if conn = false then .error ()
  else if o.copyFails orig dest then .error ()
  else if orig ∈ tabs then .ok (addTable tabs dest)
  else .error ()

/-- `drop_tables(table_list)`: drops each listed table with
`DROP TABLE IF EXISTS`; the per-table `except` clause catches a raised
statement (cursor `None` or oracle failure) and returns `False` at once,
otherwise returns `True` after the loop. -/
def drop_tables (conn : Bool) (o : Oracle) :
    List String → List String → List String × Bool
  | tabs, [] => (tabs, true)
  | tabs, t :: ts =>
    if conn = false ∨ o.dropFails t = true then (tabs, false)
    else drop_tables conn o (removeTable tabs t) ts

/-- `backup_tables(table_list)`: copies each table of the list to its
`_backup` slot via `_copy_table`; the first raised copy is caught and makes
the method return `False` immediately (backups already made stay in place),
otherwise `True`. -/
def backup_tables (conn : Bool) (o : Oracle) :
    List String → List String → List String × Bool
  | tabs, [] => (tabs, true)
  | tabs, t :: ts =>
    match copyTable conn o tabs t (backupName t) with
    | .error _ => (tabs, false)
    | .ok tabs2 => backup_tables conn o tabs2 ts

/-- `restore_tables(table_list)`: copies each `_backup` slot back over its
table; the first raised copy stops the loop with `False`, otherwise `True`. -/
def restore_tables (conn : Bool) (o : Oracle) :
    List String → List String → List String × Bool
  | tabs, [] => (tabs, true)
  | tabs, t :: ts =>
    match copyTable conn o tabs (backupName t) t with
    | .error _ => (tabs, false)
    | .ok tabs2 => restore_tables conn o tabs2 ts

/-- `update_osm_tables()`: runs `osm2pgsql` in create mode over the extract
file as a subprocess (no cursor involved); returns `True` iff the exit code
is `0`, in which case the importer has (re)created the four base tables. -/
def update_osm_tables (o : Oracle) (tabs : List String) : List String × Bool :=
  if o.importerExit = 0 then (TABLES_OSM.foldl addTable tabs, true) else (tabs, false)

/-- `update_db()`: backs the base tables up, drops the originals
unconditionally, runs the importer, then either drops the backup slots
(import and backup both succeeded), or on import failure restores from the
backups when they were all made and calls `sys.exit(1)`; on the remaining
path (`update_complete` true, backup failed) it just returns
`update_complete`.  Result: final table state, and `Except.error code` for
`sys.exit(code)` or `Except.ok update_complete` for a normal return. -/
def update_db (conn : Bool) (o : Oracle) (tabs : List String) :
    List String × Except Nat Bool :=
  let r1 := backup_tables conn o tabs TABLES_OSM
  let backup_is_done := r1.2
  let r2 := drop_tables conn o r1.1 TABLES_OSM
  let r3 := update_osm_tables o r2.1
  let update_complete := r3.2
  if update_complete = true ∧ backup_is_done = true then
    let r4 := drop_tables conn o r3.1 (TABLES_OSM.map backupName)
    (r4.1, .ok update_complete)
  else if update_complete = false then
    if backup_is_done = true then
      let r5 := restore_tables conn o r3.1 TABLES_OSM
      if r5.2 = true then
        let r6 := drop_tables conn o r5.1 (TABLES_OSM.map backupName)
        (r6.1, .error 1)
      else (r5.1, .error 1)
    else (r3.1, .error 1)
  else (r3.1, .ok update_complete)

/-- `backup_layers()`: the same copy loop as `backup_tables`, run over the
layer names (copy each layer to its `_backup` slot, `False` on the first
raised copy). -/
def backup_layers (conn : Bool) (o : Oracle) (tabs : List String) :
    List String × Bool :=
  backup_tables conn o tabs LAYER_NAMES

/-- `restore_layers()`: copies the `_backup` slot of each layer back over the
layer; a raised copy is fatal (`sys.exit(1)`).  Defined in the source but
never called by any other method. -/
def restore_layers (conn : Bool) (o : Oracle) :
    List String → List String → List String × Except Nat Unit
  | tabs, [] => (tabs, .ok ())
  | tabs, l :: ls =>
    match copyTable conn o tabs (backupName l) l with
    | .error _ => (tabs, .error 1)
    | .ok tabs2 => restore_layers conn o tabs2 ls

/-- One layer build statement, `cur.execute(query)` then `conn.commit()`:
raises when the cursor is `None`, when the oracle makes the statement fail,
or when the base table it selects from is missing; on success the layer
table exists. -/
def buildLayer (conn : Bool) (o : Oracle) (tabs : List String) (l : String) :
    Except Unit (List String) :=
  if conn = false then .error ()
  else if o.layerExecFails l then .error ()
  else if layerSource l ∈ tabs then .ok (addTable tabs l)
  else .error ()

/-- The `for layer, query in self.LAYERS.items()` loop of `create_layers`:
builds each layer in the insertion order of the mapping, commits after each, and
`break`s on the first raised statement.  Returns the state, the final value
of `layers_created`, and the list of layers whose statement was attempted
(in execution order). -/
def layerLoop (conn : Bool) (o : Oracle) :
    List String → List String → List String × Bool × List String
  | tabs, [] => (tabs, true, [])
  | tabs, l :: ls =>
    match buildLayer conn o tabs l with
    | .error _ => (tabs, false, [l])
    | .ok tabs2 =>
      let r := layerLoop conn o tabs2 ls
      (r.1, r.2.1, l :: r.2.2)

/-- `create_layers()`: backs the layer tables up, drops the originals
unconditionally, runs the build loop; if any build failed it calls
`sys.exit(1)` (no restore is performed), otherwise it drops the layer
backup slots when `backup_is_done` and returns normally. -/
def create_layers (conn : Bool) (o : Oracle) (tabs : List String) :
    List String × Except Nat Unit :=
  let r1 := backup_layers conn o tabs
  let backup_is_done := r1.2
  let r2 := drop_tables conn o r1.1 LAYER_NAMES
  let r3 := layerLoop conn o r2.1 LAYER_NAMES
  let layers_created := r3.2.1
  if layers_created = false then (r3.1, .error 1)
  else if backup_is_done = true then
    let r4 := drop_tables conn o r3.1 (LAYER_NAMES.map backupName)
    (r4.1, .ok ())
  else (r3.1, .ok ())

/-- Ways the remote-metadata step of `check_if_obsolete` can raise:
`requests.head` itself fails, the response has no `Content-Length` header
(`KeyError`), or the header value is not an integer (`ValueError` from
`int(...)`).  None of these is a `FileNotFoundError`. -/
inductive HeadErr where
  | requestFailed
  | noContentLength
  | notAnInteger
deriving DecidableEq

/-- `check_if_obsolete()`: stats the local extract file (`localSize = none`
models a missing file, whose `os.stat` raises `FileNotFoundError`), then
asks the remote `Content-Length` (`head`).  The one `except` clause catches
only `FileNotFoundError` and returns `False`; any `HeadErr` propagates.
With both sizes at hand it returns `False` when they are equal and `True`
when they differ. -/
def check_if_obsolete (localSize : Option Nat) (head : Except HeadErr Nat) :
    Except HeadErr Bool :=
  match localSize with
  | none => .ok false
  | some local_file_size =>
    match head with
    | .error e => .error e
    | .ok remote_file_size =>
      if local_file_size = remote_file_size then .ok false else .ok true

/-- Outcome of the `shutil.move` performed by `_create_file_backup`. -/
inductive MoveOutcome where
  | moved
  | fileNotFound
  | permissionDenied
  | osError
deriving DecidableEq

/-- `manage_backup()`: calls `_create_file_backup` and catches only
`FileNotFoundError`, turning it into `False` (no file to protect); a
successful move gives `True`; `PermissionError` / `OSError` propagate. -/
def manage_backup (mv : MoveOutcome) : Except MoveOutcome Bool :=
  match mv with
  | .moved => .ok true
  | .fileNotFound => .ok false
  | .permissionDenied => .error .permissionDenied
  | .osError => .error .osError

/-- `prepare_download()`: runs `manage_backup`; `PermissionError` and
`OSError` are caught here and turned into `sys.exit(1)`; otherwise the
backup flag is returned (a `False` flag only logs a warning). -/
def prepare_download (mv : MoveOutcome) : Except Nat Bool :=
  match manage_backup mv with
  | .ok b => .ok b
  | .error _ => .error 1

/-- The `while downloaded_size < total_size` loop of `download_pbf`:
`chunks` is the sequence of sizes `response.raw.read` yields (an exhausted
stream yields empty reads).  The loop exits when the running total reaches
`total`, or `break`s on an empty chunk; it returns the bytes written. -/
def download_loop (total : Nat) : List Nat → Nat → Nat
  | [], downloaded => downloaded
  | c :: cs, downloaded =>
    if downloaded < total then
      if c = 0 then downloaded else download_loop total cs (downloaded + c)
    else downloaded

/-- `download_pbf()`: streams the remote file chunk by chunk.  The one
`except Exception` clause returns `False` when anything in the block raises
(`raisesEx`); otherwise the loop runs to its end and the method returns
`True` — whatever number of bytes was received.  Result: the returned flag
and the bytes written on the non-raising path. -/
def download_pbf (raisesEx : Bool) (total : Nat) (chunks : List Nat) :
    Bool × Nat :=
  if raisesEx then (false, 0) else (true, download_loop total chunks 0)

/-- `prepare_update(backup_is_done)`: downloads the new extract, then
deletes the file backup when both flags hold, restores it and exits 1 when
a backup exists but the download failed, and exits 1 on the remaining path
(`backup_is_done` false, whatever `download_is_done` is).  Returns
`download_is_done` on the one non-exiting path. -/
def prepare_update (backup_is_done : Bool) (raisesEx : Bool) (total : Nat)
    (chunks : List Nat) : Except Nat Bool :=
  let download_is_done := (download_pbf raisesEx total chunks).1
  if backup_is_done = true ∧ download_is_done = true then .ok download_is_done
  else if backup_is_done = true ∧ download_is_done = false then .error 1
  else .error 1

/-- Everything `run` observes about the outside world, plus the object
state at the time of the call: `conn = false` models `self.conn = None` /
`self.cur = None` (which is how `__init__` leaves them; `run` itself never
calls `connect`). -/
structure Env where
  localSize : Option Nat
  head : Except HeadErr Nat
  moveOutcome : MoveOutcome
  dlRaises : Bool
  contentLength : Nat
  chunks : List Nat
  conn : Bool
  oracle : Oracle
  tables : List String

/-- Pipeline phases `run` can enter: the download sub-pipeline
(`prepare_download` + `prepare_update`), the `update_db` call, and the
`create_layers` call. -/
inductive Phase where
  | download
  | updateDb
  | layers
deriving DecidableEq

/-- How a `run` invocation ends: a `sys.exit(code)`, an uncaught exception
out of `check_if_obsolete`, or falling off the end of `run`. -/
inductive RunExit where
  | exited (code : Nat)
  | raised (e : HeadErr)
  | finished
deriving DecidableEq

/-- Observable result of `run`: final table state, the phases entered in
order, and how the call ended. -/
structure RunResult where
  tables : List String
  phases : List Phase
  exit : RunExit
deriving DecidableEq

/-- Tail of `run` after the download branch: the two `if`s guarding
`update_db` and `create_layers`.  `run` discards the value returned by
`prepare_update`, so the local `download_is_done` still holds its
initialisation `False` here, and the first guard is literally
`False or force_update`. -/
def runDbPhases (env : Env) (force_update recreate_layers : Bool)
    (tr : List Phase) : RunResult :=
  if false = true ∨ force_update = true then
    let r := update_db env.conn env.oracle env.tables
    match r.2 with
    | .error c => ⟨r.1, tr ++ [.updateDb], .exited c⟩
    | .ok db_updated =>
      if db_updated = true ∨ recreate_layers = true then
        let r2 := create_layers env.conn env.oracle r.1
        match r2.2 with
        | .error c => ⟨r2.1, tr ++ [.updateDb, .layers], .exited c⟩
        | .ok _ => ⟨r2.1, tr ++ [.updateDb, .layers], .finished⟩
      else ⟨r.1, tr ++ [.updateDb], .finished⟩
  else if recreate_layers = true then
    let r2 := create_layers env.conn env.oracle env.tables
    match r2.2 with
    | .error c => ⟨r2.1, tr ++ [.layers], .exited c⟩
    | .ok _ => ⟨r2.1, tr ++ [.layers], .finished⟩
  else ⟨env.tables, tr, .finished⟩

/-- `run(force_download, force_update, recreate_layers)`: checks freshness
(an uncaught exception there ends the call), enters the download
sub-pipeline when the extract is obsolete or `force_download` is set, exits
0 when there is nothing to do and no force flag, then runs the database
phases guarded as in the source (`download_is_done` is initialised to
`False` and never reassigned, because the value `prepare_update` returns is
discarded). -/
def run (env : Env) (force_download force_update recreate_layers : Bool) :
    RunResult :=
  match check_if_obsolete env.localSize env.head with
  | .error e => ⟨env.tables, [], .raised e⟩
  | .ok download_is_obsolete =>
    if download_is_obsolete = true ∨ force_download = true then
      match prepare_download env.moveOutcome with
      | .error c => ⟨env.tables, [.download], .exited c⟩
      | .ok backup_is_done =>
        match prepare_update backup_is_done env.dlRaises env.contentLength
            env.chunks with
        | .error c => ⟨env.tables, [.download], .exited c⟩
        | .ok _ => runDbPhases env force_update recreate_layers [.download]
    else if force_update = false ∧ recreate_layers = false then
      ⟨env.tables, [], .exited 0⟩
    else runDbPhases env force_update recreate_layers []

/-- Oracle of a fully healthy environment: no SQL statement fails and the
importer exits 0. -/
def oracleAllOk : Oracle :=
  ⟨fun _ _ => false, fun _ => false, fun _ => false, 0⟩

/-- Oracle under which every table copy raises (so every backup phase
fails) and the importer exits 1. -/
def oracleCopyAlwaysFails : Oracle :=
  ⟨fun _ _ => true, fun _ => false, fun _ => false, 1⟩

/-- Oracle under which only the backup copy of `planet_osm_point` raises
(a partial backup failure: the copy of `planet_osm_line` has already
succeeded) while the importer exits 0. -/
def oraclePointBackupFails : Oracle :=
  ⟨fun orig _ => orig == "planet_osm_point", fun _ => false, fun _ => false, 0⟩

/-- Oracle under which only the build statement of `line_water` raises;
copies and drops succeed and the importer exits 0. -/
def oracleLineWaterBuildFails : Oracle :=
  ⟨fun _ _ => false, fun _ => false, fun l => l == "line_water", 0⟩

/-- Oracle under which only the build statement of `area_water` (the second
layer in mapping order) raises; copies, drops and the `line_water` build
succeed and the importer exits 0. -/
def oracleAreaWaterBuildFails : Oracle :=
  ⟨fun _ _ => false, fun _ => false, fun l => l == "area_water", 0⟩

/-- Database state holding exactly the four base tables. -/
def baseTables : List String := TABLES_OSM

/-- Database state holding the four base tables and both layer tables. -/
def fullTables : List String := TABLES_OSM ++ LAYER_NAMES

/-- Environment of a stale local extract (local size 5, remote size 7)
whose file backup and download both succeed, with a live connection. -/
def envStaleDownloadOk : Env :=
  ⟨some 5, .ok 7, .moved, false, 10, [10], true, oracleAllOk, baseTables⟩

/-- Environment with no local extract file at all (`os.stat` raises
`FileNotFoundError`, the backup move raises `FileNotFoundError`) and a
download that succeeds in full. -/
def envNoLocalFileDownloadOk : Env :=
  ⟨none, .ok 10, .fileNotFound, false, 10, [10], true, oracleAllOk, baseTables⟩

/-- Environment of a fresh local extract with `conn = false`: the state in
which `run` is always entered from `__init__`, since `run` never calls
`connect` and `__init__` sets `self.conn = None`, `self.cur = None`. -/
def envNeverConnected : Env :=
  ⟨some 5, .ok 5, .moved, false, 10, [10], false, oracleAllOk, baseTables⟩

/-- Membership in the state after `addTable`. -/
theorem mem_addTable (tabs : List String) (t x : String) :
    x ∈ addTable tabs t ↔ x ∈ tabs ∨ x = t := by
  unfold addTable
  split
  · constructor
    · exact fun hx => Or.inl hx
    · rintro (hx | rfl)
      · exact hx
      · assumption
  · simp [List.mem_append]

/-- Membership in the state after `removeTable`. -/
theorem mem_removeTable (tabs : List String) (t x : String) :
    x ∈ removeTable tabs t ↔ x ∈ tabs ∧ x ≠ t := by
  simp [removeTable]

/-- When no drop statement fails, `drop_tables` over a live connection
returns `True` and removes exactly the listed tables. -/
theorem drop_tables_all_ok (o : Oracle) (hd : ∀ t, o.dropFails t = false) :
    ∀ (ts tabs : List String),
      (drop_tables true o tabs ts).2 = true ∧
      ∀ x, x ∈ (drop_tables true o tabs ts).1 ↔ x ∈ tabs ∧ x ∉ ts := by
  intro ts
  induction ts with
  | nil => intro tabs; simp [drop_tables]
  | cons t ts ih =>
    intro tabs
    rw [drop_tables, hd t, if_neg (by simp)]
    refine ⟨(ih _).1, fun x => ?_⟩
    rw [(ih _).2 x, mem_removeTable]
    simp only [List.mem_cons, not_or]
    tauto

/-- Membership in the state after folding `addTable` over a list. -/
theorem mem_foldl_addTable (l : List String) :
    ∀ (tabs : List String) (x : String),
      x ∈ l.foldl addTable tabs ↔ x ∈ tabs ∨ x ∈ l := by
  induction l with
  | nil => simp
  | cons t ts ih =>
    intro tabs x
    rw [List.foldl_cons, ih, mem_addTable]
    simp only [List.mem_cons]
    tauto

/-- A successful `_copy_table` adds exactly the destination table. -/
theorem copyTable_ok (conn : Bool) (o : Oracle) (tabs : List String)
    (orig dest : String) (ts2 : List String)
    (h : copyTable conn o tabs orig dest = .ok ts2) :
    ts2 = addTable tabs dest := by
  unfold copyTable at h
  repeat' split at h
  all_goals simp_all

/-- A successful layer build statement adds exactly the layer table. -/
theorem buildLayer_ok (conn : Bool) (o : Oracle) (tabs : List String)
    (l : String) (ts2 : List String)
    (h : buildLayer conn o tabs l = .ok ts2) :
    ts2 = addTable tabs l := by
  unfold buildLayer at h
  repeat' split at h
  all_goals simp_all

/-- `backup_tables` never removes a table: it only adds backup slots (and
stops early on failure), so every table present before the call is present
after it. -/
theorem backup_tables_mem_preserved (conn : Bool) (o : Oracle) :
    ∀ (ts tabs : List String) (x : String), x ∈ tabs →
      x ∈ (backup_tables conn o tabs ts).1 := by
  intro ts
  induction ts with
  | nil => intro tabs x hx; simpa [backup_tables] using hx
  | cons t ts ih =>
    intro tabs x hx
    rcases hb : copyTable conn o tabs t (backupName t) with _ | ts2
    · simp only [backup_tables, hb]
      exact hx
    · have h2 := copyTable_ok conn o tabs t (backupName t) ts2 hb
      subst h2
      simp only [backup_tables, hb]
      exact ih _ x ((mem_addTable _ _ _).2 (Or.inl hx))

/-- `drop_tables` removes only tables of its list: a table not listed that
was present before the call is present after it (whether or not the loop
stopped early on a failure). -/
theorem drop_tables_mem_preserved (conn : Bool) (o : Oracle) :
    ∀ (ts tabs : List String) (x : String), x ∈ tabs → x ∉ ts →
      x ∈ (drop_tables conn o tabs ts).1 := by
  intro ts
  induction ts with
  | nil => intro tabs x hx _; simpa [drop_tables] using hx
  | cons t ts ih =>
    intro tabs x hx hnx
    rw [drop_tables]
    split
    · exact hx
    · refine ih _ x ?_ fun h => hnx (List.mem_cons_of_mem t h)
      exact (mem_removeTable tabs t x).2
        ⟨hx, fun h => hnx (h ▸ List.mem_cons_self t ts)⟩

/-- When the build loop of `create_layers` reports success, it has built
every layer of its list and kept every table it started with. -/
theorem layerLoop_mem (conn : Bool) (o : Oracle) :
    ∀ (ls tabs : List String),
      (layerLoop conn o tabs ls).2.1 = true →
      (∀ x ∈ tabs, x ∈ (layerLoop conn o tabs ls).1) ∧
      ∀ l ∈ ls, l ∈ (layerLoop conn o tabs ls).1 := by
  intro ls
  induction ls with
  | nil =>
    intro tabs _
    simp [layerLoop]
  | cons l ls ih =>
    intro tabs hsucc
    rcases hb : buildLayer conn o tabs l with _ | ts2
    · rw [layerLoop, hb] at hsucc
      exact absurd hsucc (by simp)
    · have hts2 := buildLayer_ok conn o tabs l ts2 hb
      subst hts2
      simp only [layerLoop, hb] at hsucc ⊢
      obtain ⟨ihp, ihl⟩ := ih (addTable tabs l) hsucc
      refine ⟨fun x hx => ihp x ((mem_addTable tabs l x).2 (Or.inl hx)), ?_⟩
      intro v hv
      rcases List.mem_cons.1 hv with rfl | hv
      · exact ihp v ((mem_addTable tabs v v).2 (Or.inr rfl))
      · exact ihl v hv

/-- C1.  Counterexample: under `oracleCopyAlwaysFails` the backup phase of
`update_db` fails (`backup_tables` returns `False`), yet the call does not
abort before the drop phase — every original base table, `planet_osm_line`
among them, is dropped (the final state is empty), contrary to the claim
that a failed backup leaves all originals untouched. -/
theorem c1_counterexample :
    (backup_tables true oracleCopyAlwaysFails baseTables TABLES_OSM).2 = false ∧
    "planet_osm_line" ∈ baseTables ∧
    update_db true oracleCopyAlwaysFails baseTables = ([], .error 1) ∧
    "planet_osm_line" ∉ (update_db true oracleCopyAlwaysFails baseTables).1 := by
  refine ⟨rfl, by decide, rfl, by decide⟩

/-- C1 (amended).  When the backup phase of a resource set fails, neither
`update_db` nor `create_layers` aborts: both still run the drop phase over
the originals and the produce phase, exactly as in the unprotected
pipeline; only the backup-slot cleanup and the restore steps are skipped. -/
theorem c1_amended (o : Oracle) (tabs tabs2 : List String)
    (hb : (backup_tables true o tabs TABLES_OSM).2 = false)
    (hb2 : (backup_layers true o tabs2).2 = false) :
    update_db true o tabs =
      (let t1 := (backup_tables true o tabs TABLES_OSM).1
       let t2 := (drop_tables true o t1 TABLES_OSM).1
       let r := update_osm_tables o t2
       if r.2 = true then (r.1, .ok true) else (r.1, .error 1)) ∧
    create_layers true o tabs2 =
      (let t1 := (backup_layers true o tabs2).1
       let t2 := (drop_tables true o t1 LAYER_NAMES).1
       let r := layerLoop true o t2 LAYER_NAMES
       if r.2.1 = true then (r.1, .ok ()) else (r.1, .error 1)) := by
  constructor
  · simp only [update_db, hb]
    rcases hr : (update_osm_tables o
        (drop_tables true o (backup_tables true o tabs TABLES_OSM).1 TABLES_OSM).1).2 with _ | _
    · simp [hr]
    · simp [hr]
  · simp only [create_layers, hb2]
    rcases hr : (layerLoop true o
        (drop_tables true o (backup_layers true o tabs2).1 LAYER_NAMES).1
        LAYER_NAMES).2.1 with _ | _
    · simp [hr]
    · simp [hr]

/-- C1 (amended) at a concrete input: every backup copy fails under
`oracleCopyAlwaysFails`, and both guarded replacements still proceed into
their drop and produce phases. -/
theorem c1_amended_witness :
    update_db true oracleCopyAlwaysFails baseTables =
      (let t1 := (backup_tables true oracleCopyAlwaysFails baseTables TABLES_OSM).1
       let t2 := (drop_tables true oracleCopyAlwaysFails t1 TABLES_OSM).1
       let r := update_osm_tables oracleCopyAlwaysFails t2
       if r.2 = true then (r.1, .ok true) else (r.1, .error 1)) ∧
    create_layers true oracleCopyAlwaysFails fullTables =
      (let t1 := (backup_layers true oracleCopyAlwaysFails fullTables).1
       let t2 := (drop_tables true oracleCopyAlwaysFails t1 LAYER_NAMES).1
       let r := layerLoop true oracleCopyAlwaysFails t2 LAYER_NAMES
       if r.2.1 = true then (r.1, .ok ()) else (r.1, .error 1)) :=
  c1_amended oracleCopyAlwaysFails baseTables fullTables rfl rfl

/-- C2.  Evaluation at the failing input: the local extract is stale (size
5 against remote 7), no force flag is set, the file backup and the download
both succeed — a fresh extract has just landed — yet `run` finishes without
ever invoking `update_db` (its phase trace is only the download phase),
because `run` discards the value `prepare_update` returns and its local
`download_is_done` keeps its initial `False`. -/
theorem c2_fresh_download_skips_update_db :
    (download_pbf false 10 [10]).1 = true ∧
    run envStaleDownloadOk false false false =
      ⟨baseTables, [Phase.download], .finished⟩ ∧
    Phase.updateDb ∉ (run envStaleDownloadOk false false false).phases := by
  refine ⟨rfl, rfl, by decide⟩

/-- C3.  Evaluation at the failing input: no local extract exists, so
`manage_backup` finds nothing to protect and `prepare_download` returns
`False`; the download then succeeds in full, yet `prepare_update` takes its
`else` branch (which only checks `backup_is_done`) and calls `sys.exit(1)`
— `run` with `force_download` aborts with a non-zero exit instead of
continuing to a successful refresh. -/
theorem c3_nothing_to_protect_still_aborts :
    (download_pbf false 10 [10]).1 = true ∧
    prepare_download MoveOutcome.fileNotFound = .ok false ∧
    prepare_update false false 10 [10] = .error 1 ∧
    run envNoLocalFileDownloadOk true false false =
      ⟨baseTables, [Phase.download], .exited 1⟩ := by
  refine ⟨rfl, rfl, rfl, rfl⟩

/-- C4.  Counterexample: with a declared `Content-Length` of 10 the stream
yields a 4-byte chunk and then ends (an empty chunk before the declared
length is reached); `download_pbf` breaks out of its loop and returns
`True` although only 4 of the 10 declared bytes were received. -/
theorem c4_counterexample :
    download_pbf false 10 [4] = (true, 4) ∧
    (download_pbf false 10 [4]).2 ≠ 10 := by
  refine ⟨rfl, by decide⟩

/-- C4 (amended).  `download_pbf` returns `True` iff no exception is raised
during the transfer: a premature stream end only breaks the loop, and the
received byte count is never compared with the declared `Content-Length`. -/
theorem c4_amended (raisesEx : Bool) (total : Nat) (chunks : List Nat) :
    (download_pbf raisesEx total chunks).1 = !raisesEx := by
  cases raisesEx <;> rfl

/-- C5.  Evaluation at the failing input: when the local extract file does
not exist, `check_if_obsolete` returns `False` ("no refresh needed") for
every remote answer — its `except FileNotFoundError` clause ends in
`return False`, contradicting both the claim and its own docstring and log
line; when the file exists the size comparison behaves as claimed. -/
theorem c5_missing_file_reported_fresh :
    (∀ head, check_if_obsolete none head = .ok false) ∧
    check_if_obsolete (some 5) (.ok 7) = .ok true ∧
    check_if_obsolete (some 5) (.ok 5) = .ok false :=
  ⟨fun _ => rfl, rfl, rfl⟩

/-- C6.  Counterexample: the layer backups both succeed, the build of
`line_water` then fails, and `create_layers` terminates the run with exit
code 1 while `line_water` is absent from the final state and its backup
slot is still present — no copy-back from the backup slots was attempted
(a restore would have re-created `line_water`); `restore_layers` is never
invoked. -/
theorem c6_counterexample :
    (backup_layers true oracleLineWaterBuildFails fullTables).2 = true ∧
    (create_layers true oracleLineWaterBuildFails fullTables).2 = .error 1 ∧
    "line_water" ∉ (create_layers true oracleLineWaterBuildFails fullTables).1 ∧
    backupName "line_water" ∈
      (create_layers true oracleLineWaterBuildFails fullTables).1 := by
  refine ⟨rfl, rfl, by decide, by decide⟩

/-- C6 (amended).  If a layer build statement fails during `create_layers`,
the run terminates with `sys.exit(1)` immediately: the final state is
exactly the state the build loop left behind — no restore from the backup
slots is attempted and the backup tables are left in place — and the run is
reported as failed. -/
theorem c6_amended (o : Oracle) (tabs : List String)
    (h : (layerLoop true o
        (drop_tables true o (backup_layers true o tabs).1 LAYER_NAMES).1
        LAYER_NAMES).2.1 = false) :
    create_layers true o tabs =
      ((layerLoop true o
          (drop_tables true o (backup_layers true o tabs).1 LAYER_NAMES).1
          LAYER_NAMES).1, .error 1) := by
  simp only [create_layers, h]
  simp

/-- C6 (amended) at a concrete input: the failing build of `line_water`
makes `create_layers` exit 1 with the post-loop state untouched. -/
theorem c6_amended_witness :
    create_layers true oracleLineWaterBuildFails fullTables =
      ((layerLoop true oracleLineWaterBuildFails
          (drop_tables true oracleLineWaterBuildFails
            (backup_layers true oracleLineWaterBuildFails fullTables).1
            LAYER_NAMES).1
          LAYER_NAMES).1, .error 1) :=
  c6_amended oracleLineWaterBuildFails fullTables rfl

/-- C7.  Counterexample: the backup of `planet_osm_line` succeeds, the
backup of `planet_osm_point` then fails (partial backup), and the importer
succeeds; `update_db` returns control with success (`.ok true`) while BOTH
`planet_osm_line` and `planet_osm_line_backup` exist in the final state —
the duality invariant is violated on a path where produce succeeded, so the
degraded-result exception of the claim does not apply. -/
theorem c7_counterexample :
    (update_db true oraclePointBackupFails baseTables).2 = .ok true ∧
    "planet_osm_line" ∈ (update_db true oraclePointBackupFails baseTables).1 ∧
    backupName "planet_osm_line" ∈
      (update_db true oraclePointBackupFails baseTables).1 := by
  refine ⟨rfl, by decide, by decide⟩

/-- C7 (amended).  The duality invariant does hold for both resource sets
on the paths where the backup phase fully succeeded.  For the base tables:
when `backup_tables` returns `True`, no drop statement fails and the
importer exits 0, `update_db` returns `.ok true` and for every base table
the original exists and its backup slot does not.  For the layer tables:
when `backup_layers` returns `True`, no drop statement fails and the build
loop succeeds, `create_layers` returns control normally and for every
layer the original exists and its backup slot does not.  (When a backup
phase fails partway, a stale backup can coexist with its recreated
original, as the counterexample shows, with no degraded flag.) -/
theorem c7_amended (o : Oracle) (tabs tabs2 : List String)
    (hb : (backup_tables true o tabs TABLES_OSM).2 = true)
    (hd : ∀ t, o.dropFails t = false)
    (hi : o.importerExit = 0)
    (hb2 : (backup_layers true o tabs2).2 = true)
    (hsucc : (layerLoop true o
        (drop_tables true o (backup_layers true o tabs2).1 LAYER_NAMES).1
        LAYER_NAMES).2.1 = true) :
    ((update_db true o tabs).2 = .ok true ∧
      ∀ t ∈ TABLES_OSM,
        t ∈ (update_db true o tabs).1 ∧
        backupName t ∉ (update_db true o tabs).1) ∧
    ((create_layers true o tabs2).2 = .ok () ∧
      ∀ l ∈ LAYER_NAMES,
        l ∈ (create_layers true o tabs2).1 ∧
        backupName l ∉ (create_layers true o tabs2).1) := by
  constructor
  · have hup : ∀ tb, update_osm_tables o tb = (TABLES_OSM.foldl addTable tb, true) := by
      intro tb; simp [update_osm_tables, hi]
    have hmain : update_db true o tabs =
        ((drop_tables true o
            (TABLES_OSM.foldl addTable
              (drop_tables true o (backup_tables true o tabs TABLES_OSM).1 TABLES_OSM).1)
            (TABLES_OSM.map backupName)).1, .ok true) := by
      simp [update_db, hb, hup]
    rw [hmain]
    refine ⟨rfl, fun t ht => ?_⟩
    have hdrop := drop_tables_all_ok o hd (TABLES_OSM.map backupName)
      (TABLES_OSM.foldl addTable
        (drop_tables true o (backup_tables true o tabs TABLES_OSM).1 TABLES_OSM).1)
    constructor
    · rw [(hdrop.2 t)]
      refine ⟨(mem_foldl_addTable TABLES_OSM _ t).2 (Or.inr ht), ?_⟩
      fin_cases ht <;> decide
    · intro hmem
      exact ((hdrop.2 (backupName t)).1 hmem).2 (List.mem_map_of_mem backupName ht)
  · have hmain2 : create_layers true o tabs2 =
        ((drop_tables true o
            (layerLoop true o
              (drop_tables true o (backup_layers true o tabs2).1 LAYER_NAMES).1
              LAYER_NAMES).1
            (LAYER_NAMES.map backupName)).1, .ok ()) := by
      simp [create_layers, hb2, hsucc]
    rw [hmain2]
    refine ⟨rfl, fun l hl => ?_⟩
    have hdrop := drop_tables_all_ok o hd (LAYER_NAMES.map backupName)
      (layerLoop true o
        (drop_tables true o (backup_layers true o tabs2).1 LAYER_NAMES).1
        LAYER_NAMES).1
    have hmem := layerLoop_mem true o LAYER_NAMES
      (drop_tables true o (backup_layers true o tabs2).1 LAYER_NAMES).1 hsucc
    constructor
    · rw [(hdrop.2 l)]
      refine ⟨hmem.2 l hl, ?_⟩
      fin_cases hl <;> decide
    · intro hmemb
      exact ((hdrop.2 (backupName l)).1 hmemb).2 (List.mem_map_of_mem backupName hl)

/-- C7 (amended) at a concrete input: under the fully healthy oracle both
backup phases succeed and after `update_db` the table `planet_osm_line`
exists while `planet_osm_line_backup` does not; after `create_layers` the
table `line_water` exists while `line_water_backup` does not. -/
theorem c7_amended_witness :
    (update_db true oracleAllOk baseTables).2 = .ok true ∧
    ("planet_osm_line" ∈ (update_db true oracleAllOk baseTables).1 ∧
      backupName "planet_osm_line" ∉ (update_db true oracleAllOk baseTables).1) ∧
    (create_layers true oracleAllOk fullTables).2 = .ok () ∧
    ("line_water" ∈ (create_layers true oracleAllOk fullTables).1 ∧
      backupName "line_water" ∉ (create_layers true oracleAllOk fullTables).1) :=
  ⟨(c7_amended oracleAllOk baseTables fullTables rfl (fun _ => rfl) rfl rfl rfl).1.1,
   (c7_amended oracleAllOk baseTables fullTables rfl (fun _ => rfl) rfl rfl rfl).1.2
     "planet_osm_line" (by decide),
   (c7_amended oracleAllOk baseTables fullTables rfl (fun _ => rfl) rfl rfl rfl).2.1,
   (c7_amended oracleAllOk baseTables fullTables rfl (fun _ => rfl) rfl rfl rfl).2.2
     "line_water" (by decide)⟩

/-- C8.  Counterexample: with every statement succeeding, the build loop of
`create_layers` attempts the layers in the order `line_water`, `area_water`
— the insertion order of the `LAYERS` dict — although in layer-name order
`area_water` comes strictly before `line_water`; the statements are
therefore not executed in name order. -/
theorem c8_counterexample :
    (layerLoop true oracleAllOk fullTables LAYER_NAMES).2.2 =
      ["line_water", "area_water"] ∧
    "area_water" < "line_water" := by
  refine ⟨rfl, by rw [String.lt_iff_toList_lt]; decide⟩

/-- C8 (amended).  `create_layers` executes the layer build statements in
the order the layers appear in the `LAYERS` mapping (insertion order:
`line_water` then `area_water`, not sorted by name), committing after each
statement; on the first statement failure it stops immediately, so the
remaining layers are never attempted: when the `line_water` statement
raises, the attempted list is exactly `[line_water]`, the loop reports
failure and `create_layers` exits 1, while under a fully healthy oracle
both layers are attempted in mapping order.  Commit-after-each is visible
in the failure state: when the `line_water` statement succeeds and the
`area_water` statement then raises, `create_layers` exits 1 with the
already-committed `line_water` table present in the final state. -/
theorem c8_amended (o o2 o3 : Oracle) (tabs tabs2 tabs3 : List String)
    (h : o.layerExecFails "line_water" = true)
    (h2 : ∀ l, o2.layerExecFails l = false)
    (hsrc : "planet_osm_line" ∈ tabs2 ∧ "planet_osm_polygon" ∈ tabs2)
    (h3a : o3.layerExecFails "line_water" = false)
    (h3b : o3.layerExecFails "area_water" = true)
    (hsrc3 : "planet_osm_line" ∈ tabs3) :
    (layerLoop true o tabs LAYER_NAMES).2.2 = ["line_water"] ∧
    (layerLoop true o tabs LAYER_NAMES).2.1 = false ∧
    (create_layers true o tabs).2 = .error 1 ∧
    (layerLoop true o2 tabs2 LAYER_NAMES).2.2 = ["line_water", "area_water"] ∧
    ((create_layers true o3 tabs3).2 = .error 1 ∧
      "line_water" ∈ (create_layers true o3 tabs3).1) := by
  have hbAll : ∀ ts, buildLayer true o ts "line_water" = .error () := by
    intro ts; simp [buildLayer, h]
  have hloop : ∀ ts, (layerLoop true o ts LAYER_NAMES).2.1 = false ∧
      (layerLoop true o ts LAYER_NAMES).2.2 = ["line_water"] := by
    intro ts
    simp [LAYER_NAMES, layerLoop, hbAll ts]
  refine ⟨(hloop tabs).2, (hloop tabs).1, ?_, ?_, ?_⟩
  · simp [create_layers, (hloop _).1]
  · have e1 : buildLayer true o2 tabs2 "line_water" =
        .ok (addTable tabs2 "line_water") := by
      simp [buildLayer, h2, layerSource, hsrc.1]
    have hp2 : "planet_osm_polygon" ∈ addTable tabs2 "line_water" :=
      (mem_addTable tabs2 "line_water" _).2 (Or.inl hsrc.2)
    have e2 : buildLayer true o2 (addTable tabs2 "line_water") "area_water" =
        .ok (addTable (addTable tabs2 "line_water") "area_water") := by
      simp [buildLayer, h2, layerSource, hp2]
    simp [LAYER_NAMES, layerLoop, e1, e2]
  · have hm1 : "planet_osm_line" ∈ (backup_layers true o3 tabs3).1 :=
      backup_tables_mem_preserved true o3 LAYER_NAMES tabs3 "planet_osm_line" hsrc3
    have hm2 : "planet_osm_line" ∈
        (drop_tables true o3 (backup_layers true o3 tabs3).1
          ["line_water", "area_water"]).1 :=
      drop_tables_mem_preserved true o3 ["line_water", "area_water"]
        (backup_layers true o3 tabs3).1 "planet_osm_line" hm1 (by decide)
    have e1 : buildLayer true o3
        (drop_tables true o3 (backup_layers true o3 tabs3).1
          ["line_water", "area_water"]).1
        "line_water" =
        .ok (addTable
          (drop_tables true o3 (backup_layers true o3 tabs3).1
            ["line_water", "area_water"]).1
          "line_water") := by
      simp [buildLayer, h3a, layerSource, hm2]
    have e2 : buildLayer true o3
        (addTable
          (drop_tables true o3 (backup_layers true o3 tabs3).1
            ["line_water", "area_water"]).1
          "line_water")
        "area_water" = .error () := by
      simp [buildLayer, h3b]
    have hcl : create_layers true o3 tabs3 =
        (addTable
          (drop_tables true o3 (backup_layers true o3 tabs3).1
            ["line_water", "area_water"]).1
          "line_water", .error 1) := by
      simp [create_layers, LAYER_NAMES, layerLoop, e1, e2]
    rw [hcl]
    exact ⟨rfl, (mem_addTable _ _ _).2 (Or.inr rfl)⟩

/-- C8 (amended) at a concrete input: the failing `line_water` statement
stops the loop after one attempt and makes `create_layers` exit 1; the
healthy oracle attempts both layers in mapping order; and the failing
`area_water` statement leaves the committed `line_water` table in the
final state of the aborted `create_layers`. -/
theorem c8_amended_witness :
    (layerLoop true oracleLineWaterBuildFails fullTables LAYER_NAMES).2.2 =
      ["line_water"] ∧
    (layerLoop true oracleLineWaterBuildFails fullTables LAYER_NAMES).2.1 = false ∧
    (create_layers true oracleLineWaterBuildFails fullTables).2 = .error 1 ∧
    (layerLoop true oracleAllOk fullTables LAYER_NAMES).2.2 =
      ["line_water", "area_water"] ∧
    ((create_layers true oracleAreaWaterBuildFails fullTables).2 = .error 1 ∧
      "line_water" ∈ (create_layers true oracleAreaWaterBuildFails fullTables).1) :=
  c8_amended oracleLineWaterBuildFails oracleAllOk oracleAreaWaterBuildFails
    fullTables fullTables fullTables
    rfl (fun _ => rfl) ⟨by decide, by decide⟩ rfl rfl (by decide)

/-- C9.  Counterexample: `run` is invoked as `__init__` leaves the object
(`conn = false`, i.e. `self.conn = self.cur = None`) with `force_update`
set; every cursor operation raises and is caught inside the per-table
`except` clauses, but `update_db` — a database phase reached through the
public `run` entry point — still completes successfully (`.ok true`),
because `update_osm_tables` runs `osm2pgsql` as a subprocess without the
cursor; `run` then enters `create_layers` (with `recreate_layers` unset,
proving `db_updated` was `True`) and only that phase exits 1. -/
theorem c9_counterexample :
    run envNeverConnected false true false =
      ⟨baseTables, [Phase.updateDb, Phase.layers], .exited 1⟩ ∧
    (update_db false oracleAllOk baseTables).2 = .ok true :=
  ⟨rfl, rfl⟩

/-- C9 (amended).  With the connection never made (`conn = false`, as `run`
always leaves it: it never calls `connect` and `__init__` sets both fields
to `None`), every cursor operation fails but is caught: `create_layers` can
never complete (it always exits 1), while `update_db` still returns success
exactly when the external importer exits 0 — so a database phase CAN
complete successfully through `run`, with all its SQL steps silently
failed. -/
theorem c9_amended (o : Oracle) (tabs : List String) :
    (create_layers false o tabs).2 = .error 1 ∧
    ((update_db false o tabs).2 = .ok true ↔ o.importerExit = 0) := by
  refine ⟨rfl, ?_⟩
  by_cases hi : o.importerExit = 0 <;>
    simp [update_db, backup_tables, copyTable, drop_tables, update_osm_tables,
      TABLES_OSM, hi]

/-- C10.  `check_if_obsolete` catches only `FileNotFoundError`: whenever
the local extract exists (`some n`) and the remote metadata step fails —
the request itself, a missing `Content-Length` header, or a non-integer
value — the exception propagates uncaught out of `check_if_obsolete`, and
`run` (which calls it first, outside any handler) ends by re-raising it,
whatever the flags. -/
theorem c10_head_errors_propagate (n : Nat) (e : HeadErr) (mv : MoveOutcome)
    (dr : Bool) (cl : Nat) (chunks : List Nat) (conn : Bool) (o : Oracle)
    (tabs : List String) (fd fu rl : Bool) :
    check_if_obsolete (some n) (.error e) = .error e ∧
    run ⟨some n, .error e, mv, dr, cl, chunks, conn, o, tabs⟩ fd fu rl =
      ⟨tabs, [], .raised e⟩ :=
  ⟨rfl, rfl⟩

end OSMDownloader
